import Mathlib

/-!
Shallow embedding of the OMNI historical space-weather pipeline
(scripts/historical_events.py).

Numeric values decoded from the data file are modelled as exact rationals
(Python floats carry decimal tokens such as 999.9; all comparisons and
arithmetic in the source are modelled exactly over ℚ).  The one real-valued
computation, the magnetopause standoff distance, uses a real power
p ^ (-1/6.6) and is modelled over ℝ.

A raw input token is modelled by the result of Python's float() on it:
some v when the token decodes to the value v, none when float() raises
ValueError (non-numeric token).  A datetime produced by doy_to_date is
modelled by the triple (year, day-of-year, hour) that determines it; the
pipeline only ever tests timestamps for presence and copies them around.
-/

namespace SpaceWeather

/-- Named columns of the OMNI2 hourly format, mirroring the keys of the
OMNI_COLUMNS dictionary in the source. -/
inductive FieldName where
  | year
  | doy
  | hour
  | imf_magnitude
  | imf_bx_gse
  | imf_by_gse
  | imf_bz_gse
  | plasma_temp
  | proton_density
  | plasma_speed
  | kp
  | dst
deriving DecidableEq, Repr

/-- OMNI_COLUMNS: fixed 0-indexed column of each named field. -/
def OMNI_COLUMNS : FieldName → Nat
  | .year => 0
  | .doy => 1
  | .hour => 2
  | .imf_magnitude => 9
  | .imf_bx_gse => 14
  | .imf_by_gse => 15
  | .imf_bz_gse => 16
  | .plasma_temp => 22
  | .proton_density => 23
  | .plasma_speed => 24
  | .kp => 38
  | .dst => 40

/-- FILL_VALUES: per-field sentinel marking missing data (none for the
fields that have no sentinel: year, day-of-year, hour). -/
def FILL_VALUES : FieldName → Option ℚ
  | .imf_magnitude => some 999.9
  | .imf_bx_gse => some 999.9
  | .imf_by_gse => some 999.9
  | .imf_bz_gse => some 999.9
  | .plasma_temp => some 9999999.0
  | .proton_density => some 999.9
  | .plasma_speed => some 9999.0
  | .kp => some 99
  | .dst => some 99999
  | _ => none

/-- Sentinel resolution step of parse_omni_line: after decoding a value,
`fill = FILL_VALUES.get(name); if fill and abs(val - fill) < 0.1: val = None`.
The `if fill` truthiness test is modelled by the none-match plus the
`fill ≠ 0` conjunct. -/
def resolveSentinel (f : FieldName) (val : ℚ) : Option ℚ :=
  match FILL_VALUES f with
  | none => some val
  | some fill => if fill ≠ 0 ∧ |val - fill| < 0.1 then none else some val

/-- A raw token, represented by its float() decode result: some v on
success, none when float() would raise (non-numeric token). -/
abbrev Token := Option ℚ

/-- Reading one named field from the token list, mirroring the loop body
`if col < len(parts): val = float(parts[col]); ...; record[name] = val`.
The outer Option is record-level failure: none means float() raised, so the
whole record is dropped.  The inner Option is the field value after
sentinel resolution; a column beyond the end of the line leaves the key
unset, which record.get later reads as None. -/
def readField (parts : List Token) (f : FieldName) : Option (Option ℚ) :=
  match parts.get? (OMNI_COLUMNS f) with
  | none => some none
  | some none => none
  | some (some v) => some (resolveSentinel f v)

/-- Python's int() on a rational: truncation toward zero. -/
def ratTrunc (q : ℚ) : ℤ :=
  q.num.tdiv q.den

/-- Timestamp construction of parse_omni_line:
`if record.get('year') and record.get('doy') and record.get('hour') is not None`.
Year and day-of-year are tested by truthiness (None or 0.0 both fail), hour
is tested by `is not None` only.  The datetime is modelled by the integer
triple handed to doy_to_date. -/
def mkTimestamp (y d h : Option ℚ) : Option (ℤ × ℤ × ℤ) :=
  match y, d, h with
  | some yv, some dv, some hv =>
      if yv ≠ 0 ∧ dv ≠ 0 then some (ratTrunc yv, ratTrunc dv, ratTrunc hv) else none
  | _, _, _ => none

/-- One decoded OMNI record: the twelve named fields (each possibly absent
after sentinel resolution) plus the derived timestamp. -/
structure OmniRecord where
  year : Option ℚ
  doy : Option ℚ
  hour : Option ℚ
  imf_magnitude : Option ℚ
  imf_bx_gse : Option ℚ
  imf_by_gse : Option ℚ
  imf_bz_gse : Option ℚ
  plasma_temp : Option ℚ
  proton_density : Option ℚ
  plasma_speed : Option ℚ
  kp : Option ℚ
  dst : Option ℚ
  timestamp : Option (ℤ × ℤ × ℤ)
deriving DecidableEq, Repr

/-- parse_omni_line: drop the line when it has fewer than 45 tokens;
otherwise decode every named column (any float() failure drops the whole
record), resolve sentinels, and attach the timestamp when year, doy are
truthy and hour is present. -/
def parse_omni_line (parts : List Token) : Option OmniRecord :=
  if parts.length < 45 then none
  else
    (readField parts FieldName.year).bind fun y =>
    (readField parts FieldName.doy).bind fun d =>
    (readField parts FieldName.hour).bind fun h =>
    (readField parts FieldName.imf_magnitude).bind fun m =>
    (readField parts FieldName.imf_bx_gse).bind fun bx =>
    (readField parts FieldName.imf_by_gse).bind fun byv =>
    (readField parts FieldName.imf_bz_gse).bind fun bz =>
    (readField parts FieldName.plasma_temp).bind fun t =>
    (readField parts FieldName.proton_density).bind fun n =>
    (readField parts FieldName.plasma_speed).bind fun v =>
    (readField parts FieldName.kp).bind fun k =>
    (readField parts FieldName.dst).bind fun ds =>
    some { year := y, doy := d, hour := h, imf_magnitude := m,
           imf_bx_gse := bx, imf_by_gse := byv, imf_bz_gse := bz,
           plasma_temp := t, proton_density := n, plasma_speed := v,
           kp := k, dst := ds, timestamp := mkTimestamp y d h }

/-- Gregorian leap-year rule used by Python's datetime. -/
def isLeapYear (y : ℤ) : Bool :=
  (y % 4 == 0 && y % 100 != 0) || y % 400 == 0

/-- Length of a Gregorian month (1-indexed). -/
def monthLength (leap : Bool) (m : Nat) : ℤ :=
  match m with
  | 1 => 31
  | 2 => if leap then 29 else 28
  | 3 => 31
  | 4 => 30
  | 5 => 31
  | 6 => 30
  | 7 => 31
  | 8 => 31
  | 9 => 30
  | 10 => 31
  | 11 => 30
  | 12 => 31
  | _ => 0

/-- Day-of-year of a civil date, as computed by datetime.timetuple().tm_yday
for the dates the catalog uses. -/
def dayOfYear (y : ℤ) (m d : Nat) : ℤ :=
  (List.range (m - 1)).foldl (fun acc i => acc + monthLength (isLeapYear y) (i + 1)) 0 + d

/-- date_to_doy: convert a civil date to (year, day_of_year).  The source
parses a YYYY-MM-DD string through datetime.strptime and reads tm_yday;
the string-level parsing is modelled by taking the three components
directly. -/
def date_to_doy (y : ℤ) (m d : Nat) : ℤ × ℤ :=
  (y, dayOfYear y m d)

/-- Date-range filter of fetch_event_data, applied to each parsed record:
the three sequential `continue` tests on (rec_year, rec_doy) against
(start_year, start_doy, end_year, end_doy).  Returns true when the record
is kept. -/
def inDateRange (sY sD eY eD rY rD : ℤ) : Bool :=
  if rY = sY ∧ rD < sD then false
  else if rY = eY ∧ rD > eD then false
  else if rY < sY ∨ rY > eY then false
  else true

/-- Cumulative Dst threshold checks of calculate_storm_intensity: five
independent `if dst <= t: dst_level = l` statements executed in order. -/
def dst_level (dst : ℚ) : ℕ :=
  let l := 0
  let l := if dst ≤ -50 then 1 else l
  let l := if dst ≤ -100 then 2 else l
  let l := if dst ≤ -200 then 3 else l
  let l := if dst ≤ -300 then 4 else l
  if dst ≤ -400 then 5 else l

/-- Cumulative Kp threshold checks of calculate_storm_intensity. -/
def kp_level (kp : ℚ) : ℕ :=
  let l := 0
  let l := if kp ≥ 5 then 1 else l
  let l := if kp ≥ 6 then 2 else l
  let l := if kp ≥ 7 then 3 else l
  let l := if kp ≥ 8 then 4 else l
  if kp ≥ 9 then 5 else l

/-- calculate_storm_intensity: absent Dst is treated as 0; absent Kp is
treated as 0, a present raw Kp is divided by 10; the result is the larger
of the two threshold levels. -/
def calculate_storm_intensity (dst kp : Option ℚ) : ℕ :=
  let d := match dst with | none => 0 | some d => d
  let k := match kp with | none => (0 : ℚ) | some k => k / 10
  max (dst_level d) (kp_level k)

/-- Modelled from the spec's words: the descending ordered-threshold
lookup that §4.5 describes (level 5 at Dst ≤ −400 down to level 1 at
Dst ≤ −50), for comparison with the source's cumulative checks. -/
def dst_level_ordered (dst : ℚ) : ℕ :=
  if dst ≤ -400 then 5
  else if dst ≤ -300 then 4
  else if dst ≤ -200 then 3
  else if dst ≤ -100 then 2
  else if dst ≤ -50 then 1
  else 0

/-- calculate_magnetopause_standoff: default 10.0 when density or speed is
absent; otherwise dynamic pressure p = 2e-6 n v², southward-Bz compression
factor, Shue-style power law, clamped to [4, 15]. -/
noncomputable def calculate_magnetopause_standoff
    (density speed bz : Option ℚ) : ℝ :=
  match density, speed with
  | some n, some v =>
    let p_dyn : ℚ := 2e-6 * n * v * v
    let bz_factor : ℚ :=
      match bz with
      | some b => if b < 0 then 1 + 0.02 * |b| else 1
      | none => 1
    let r0 : ℝ :=
      if 0 < p_dyn then
        (11.4 : ℝ) * (p_dyn : ℝ) ^ (-(1 / 6.6) : ℝ) / (bz_factor : ℝ)
      else (10 : ℝ)
    max 4 (min 15 r0)
  | _, _ => 10

/-- Dynamic pressure computed inside process_event_data:
`if density and speed: pressure = 2e-6 * density * speed * speed else None`.
Python truthiness makes both the None and the 0.0 value of either input
fall into the else branch. -/
def pressureOf (density speed : Option ℚ) : Option ℚ :=
  match density, speed with
  | some d, some s => if d ≠ 0 ∧ s ≠ 0 then some (2e-6 * d * s * s) else none
  | _, _ => none

/-- True-unit Kp assembled by process_event_data:
`kp / 10.0 if kp else None`; a raw Kp of 0 is falsy and yields None. -/
def kpTrue (kp : Option ℚ) : Option ℚ :=
  match kp with
  | some k => if k ≠ 0 then some (k / 10) else none
  | none => none

/-- Output group solar_wind of a ProcessedRecord. -/
structure SolarWindOut where
  speed : Option ℚ
  density : Option ℚ
  temperature : Option ℚ
  pressure : Option ℚ
deriving DecidableEq, Repr

/-- Output group imf of a ProcessedRecord. -/
structure ImfOut where
  magnitude : Option ℚ
  bx : Option ℚ
  by_ : Option ℚ
  bz : Option ℚ
deriving DecidableEq, Repr

/-- Output group geomagnetic of a ProcessedRecord. -/
structure GeomagneticOut where
  dst : Option ℚ
  kp : Option ℚ
  storm_level : ℕ
deriving DecidableEq, Repr

/-- Output group magnetosphere of a ProcessedRecord. -/
structure MagnetosphereOut where
  standoff_re : ℝ

/-- One visualization-ready record as assembled by process_event_data. -/
structure ProcessedRecord where
  timestamp : ℤ × ℤ × ℤ
  solar_wind : SolarWindOut
  imf : ImfOut
  geomagnetic : GeomagneticOut
  magnetosphere : MagnetosphereOut

/-- Loop body of process_event_data for one raw record: skip the record
when its timestamp is absent (the truthiness test `if not
record.get('timestamp')` — the timestamp, when set, is a non-empty ISO
string, hence truthy exactly when present); otherwise derive pressure,
standoff, storm level and true-unit Kp and assemble the record. -/
noncomputable def processOne (r : OmniRecord) : Option ProcessedRecord :=
  match r.timestamp with
  | none => none
  | some ts =>
    some
      { timestamp := ts
        solar_wind :=
          { speed := r.plasma_speed
            density := r.proton_density
            temperature := r.plasma_temp
            pressure := pressureOf r.proton_density r.plasma_speed }
        imf :=
          { magnitude := r.imf_magnitude
            bx := r.imf_bx_gse
            by_ := r.imf_by_gse
            bz := r.imf_bz_gse }
        geomagnetic :=
          { dst := r.dst
            kp := kpTrue r.kp
            storm_level := calculate_storm_intensity r.dst r.kp }
        magnetosphere :=
          { standoff_re :=
              calculate_magnetopause_standoff r.proton_density r.plasma_speed
                r.imf_bz_gse } }

/-- process_event_data: the processed list accumulated over the raw
records (the event_info and generated_at wrapper fields of the returned
dictionary carry the caller's descriptor and the wall-clock time and hold
no computation; the data list is modelled). -/
noncomputable def process_event_data (raw : List OmniRecord) : List ProcessedRecord :=
  raw.filterMap processOne

/-- Python's max over a list: none on the empty list (the source guards
with `if speeds else None`), otherwise the greatest element. -/
def pyMax : List ℚ → Option ℚ
  | [] => none
  | x :: xs => some (match pyMax xs with | none => x | some m => max x m)

/-- Python's min over a list, none on the empty list. -/
def pyMin : List ℚ → Option ℚ
  | [] => none
  | x :: xs => some (match pyMin xs with | none => x | some m => min x m)

/-- List comprehension `[d[g][f] for d in data if d[g][f]]` of
generate_summary: keeps a field value only when it is truthy, i.e. present
and nonzero. -/
def truthyVals (f : ProcessedRecord → Option ℚ) (data : List ProcessedRecord) : List ℚ :=
  data.filterMap fun d =>
    match f d with
    | some v => if v ≠ 0 then some v else none
    | none => none

/-- Speeds list collected by generate_summary. -/
def speedsOf (data : List ProcessedRecord) : List ℚ :=
  truthyVals (fun d => d.solar_wind.speed) data

/-- Densities list collected by generate_summary. -/
def densitiesOf (data : List ProcessedRecord) : List ℚ :=
  truthyVals (fun d => d.solar_wind.density) data

/-- Dst list collected by generate_summary. -/
def dstsOf (data : List ProcessedRecord) : List ℚ :=
  truthyVals (fun d => d.geomagnetic.dst) data

/-- Bz list collected by generate_summary. -/
def bzsOf (data : List ProcessedRecord) : List ℚ :=
  truthyVals (fun d => d.imf.bz) data

/-- Summary group time_range. -/
structure TimeRangeOut where
  start : ℤ × ℤ × ℤ
  stop : ℤ × ℤ × ℤ
  hours : ℕ
deriving DecidableEq, Repr

/-- Summary group solar_wind. -/
structure SolarWindSummary where
  max_speed : Option ℚ
  min_speed : Option ℚ
  avg_speed : Option ℚ
  max_density : Option ℚ
deriving DecidableEq, Repr

/-- Summary group geomagnetic. -/
structure GeomagneticSummary where
  min_dst : Option ℚ
  max_storm_level : ℕ
deriving DecidableEq, Repr

/-- Summary group imf. -/
structure ImfSummary where
  min_bz : Option ℚ
  max_bz : Option ℚ
deriving DecidableEq, Repr

/-- Full event summary dictionary. -/
structure EventSummary where
  time_range : TimeRangeOut
  solar_wind : SolarWindSummary
  geomagnetic : GeomagneticSummary
  imf : ImfSummary
deriving DecidableEq, Repr

/-- generate_summary: the empty dictionary (modelled as none) on empty
input, otherwise extrema and average over the truthy-filtered lists, the
max storm level over all records, and the time range from the first and
last timestamps. -/
def generate_summary (data : List ProcessedRecord) : Option EventSummary :=
  match data with
  | [] => none
  | d0 :: rest =>
    let data := d0 :: rest
    let speeds := speedsOf data
    let densities := densitiesOf data
    let dsts := dstsOf data
    let bzs := bzsOf data
    some
      { time_range :=
          { start := d0.timestamp
            stop := (data.getLast (by simp [data])).timestamp
            hours := data.length }
        solar_wind :=
          { max_speed := pyMax speeds
            min_speed := pyMin speeds
            avg_speed :=
              if speeds = [] then none else some (speeds.sum / speeds.length)
            max_density := pyMax densities }
        geomagnetic :=
          { min_dst := pyMin dsts
            max_storm_level :=
              (rest.map fun d => d.geomagnetic.storm_level).foldl
                max d0.geomagnetic.storm_level }
        imf :=
          { min_bz := pyMin bzs
            max_bz := pyMax bzs } }

/-- Concrete raw record with a present-but-zero proton density and a
present plasma speed of 400, timestamp attached. -/
def rC1 : OmniRecord :=
  { year := some 2024, doy := some 130, hour := some 0
    imf_magnitude := none, imf_bx_gse := none, imf_by_gse := none
    imf_bz_gse := none, plasma_temp := none
    proton_density := some 0, plasma_speed := some 400
    kp := none, dst := none, timestamp := some (2024, 130, 0) }

/-- Concrete raw record with a present-but-zero raw Kp, timestamp
attached. -/
def rC3 : OmniRecord :=
  { year := some 2024, doy := some 130, hour := some 0
    imf_magnitude := none, imf_bx_gse := none, imf_by_gse := none
    imf_bz_gse := none, plasma_temp := none
    proton_density := some 5, plasma_speed := some 400
    kp := some 0, dst := none, timestamp := some (2024, 130, 0) }

/-- Concrete raw record with density 10, speed 800, Bz -20, raw Kp 70 and
Dst -450, timestamp attached. -/
def rDemo : OmniRecord :=
  { year := some 2024, doy := some 130, hour := some 0
    imf_magnitude := some 25, imf_bx_gse := some 5, imf_by_gse := some 5
    imf_bz_gse := some (-20), plasma_temp := some 500000
    proton_density := some 10, plasma_speed := some 800
    kp := some 70, dst := some (-450), timestamp := some (2024, 130, 0) }

/-- Processed record produced by processOne on rDemo, written field by
field. -/
noncomputable def pDemo : ProcessedRecord :=
  { timestamp := (2024, 130, 0)
    solar_wind :=
      { speed := some 800, density := some 10, temperature := some 500000
        pressure := pressureOf (some 10) (some 800) }
    imf := { magnitude := some 25, bx := some 5, by_ := some 5, bz := some (-20) }
    geomagnetic :=
      { dst := some (-450), kp := kpTrue (some 70)
        storm_level := calculate_storm_intensity (some (-450)) (some 70) }
    magnetosphere :=
      { standoff_re :=
          calculate_magnetopause_standoff (some 10) (some 800) (some (-20)) } }

/-- Concrete processed record carrying a present-but-zero Dst (and a
present-but-zero Bz). -/
noncomputable def pC2 : ProcessedRecord :=
  { timestamp := (2024, 130, 0)
    solar_wind :=
      { speed := some 400, density := some 5, temperature := none
        pressure := some 1.6 }
    imf := { magnitude := none, bx := none, by_ := none, bz := some 0 }
    geomagnetic := { dst := some 0, kp := none, storm_level := 0 }
    magnetosphere := { standoff_re := 10 } }

/-- A 45-token line whose hour column decodes to 0 (year 2024, day 5). -/
def hourZeroLine : List Token :=
  some 2024 :: some 5 :: some 0 :: List.replicate 42 (some 1)

/-- A 45-token line whose year column decodes to 0. -/
def yearZeroLine : List Token :=
  some 0 :: some 5 :: some 3 :: List.replicate 42 (some 1)

/-- A 45-token line whose day-of-year column decodes to 0. -/
def doyZeroLine : List Token :=
  some 2024 :: some 0 :: some 3 :: List.replicate 42 (some 1)

/-- The record parsed from hourZeroLine, written field by field. -/
def rHourZero : OmniRecord :=
  { year := some 2024, doy := some 5, hour := some 0
    imf_magnitude := some 1, imf_bx_gse := some 1, imf_by_gse := some 1
    imf_bz_gse := some 1, plasma_temp := some 1
    proton_density := some 1, plasma_speed := some 1
    kp := some 1, dst := some 1, timestamp := some (2024, 5, 0) }

/-- Helper: the cumulative Dst threshold checks compute the ordered
descending-threshold lookup. -/
theorem dst_level_eq_ordered (d : ℚ) : dst_level d = dst_level_ordered d := by
  unfold dst_level dst_level_ordered
  split_ifs <;> first | rfl | omega | linarith

/-- Helper: the cumulative Dst threshold checks are antitone in Dst. -/
theorem dst_level_anti {d1 d2 : ℚ} (h : d1 ≤ d2) : dst_level d2 ≤ dst_level d1 := by
  rw [dst_level_eq_ordered, dst_level_eq_ordered]
  unfold dst_level_ordered
  split_ifs <;> first | omega | linarith

/-- Claim C4: for every combination of (density, speed, Bz), each present
or absent, calculate_magnetopause_standoff returns a value in the closed
interval [4, 15] Earth radii. -/
theorem standoff_range_C4 (density speed bz : Option ℚ) :
    4 ≤ calculate_magnetopause_standoff density speed bz ∧
    calculate_magnetopause_standoff density speed bz ≤ 15 := by
  cases density with
  | none =>
    constructor <;> · simp only [calculate_magnetopause_standoff]; norm_num
  | some n =>
    cases speed with
    | none =>
      constructor <;> · simp only [calculate_magnetopause_standoff]; norm_num
    | some v =>
      simp only [calculate_magnetopause_standoff]
      exact ⟨le_max_left _ _, max_le (by norm_num) (min_le_left _ _)⟩

/-- Claim C5: with density absent, calculate_magnetopause_standoff returns
exactly 10 Earth radii for every speed and Bz, and likewise with speed
absent for every density; the function is total, so it never fails. -/
theorem standoff_default_C5 :
    (∀ speed bz : Option ℚ, calculate_magnetopause_standoff none speed bz = 10) ∧
    (∀ density bz : Option ℚ, calculate_magnetopause_standoff density none bz = 10) := by
  constructor
  · intro s b; cases s <;> rfl
  · intro d b; cases d <;> rfl

/-- Claim C6: with Kp absent, calculate_storm_intensity is monotone
non-decreasing in the magnitude of a non-positive Dst, takes the stated
values at -49, -50, -100, -200, -300 and -400, and its cumulative
descending threshold checks agree with the ordered monotone threshold
lookup of the spec. -/
theorem storm_intensity_monotone_C6 :
    (∀ d1 d2 : ℚ, d1 ≤ d2 → d2 ≤ 0 →
      calculate_storm_intensity (some d2) none ≤ calculate_storm_intensity (some d1) none)
    ∧ calculate_storm_intensity (some (-49)) none = 0
    ∧ calculate_storm_intensity (some (-50)) none = 1
    ∧ calculate_storm_intensity (some (-100)) none = 2
    ∧ calculate_storm_intensity (some (-200)) none = 3
    ∧ calculate_storm_intensity (some (-300)) none = 4
    ∧ calculate_storm_intensity (some (-400)) none = 5
    ∧ (∀ d : ℚ, dst_level d = dst_level_ordered d) := by
  have hk : kp_level 0 = 0 := by decide
  refine ⟨?_, by decide, by decide, by decide, by decide, by decide, by decide, ?_⟩
  · intro d1 d2 h h0
    simp only [calculate_storm_intensity, hk, Nat.max_zero]
    exact dst_level_anti h
  · exact dst_level_eq_ordered

/-- Witness for claim C6: the monotonicity part applied at the concrete
pair Dst = -400 and Dst = -300. -/
theorem storm_intensity_monotone_C6_witness :
    calculate_storm_intensity (some (-300 : ℚ)) none ≤
      calculate_storm_intensity (some (-400 : ℚ)) none :=
  storm_intensity_monotone_C6.1 (-400) (-300) (by norm_num) (by norm_num)

/-- Claim C7: the date-range filter of fetch_event_data keeps a start-year
record only when its day-of-year is at least the start day, keeps an
end-year record only when its day-of-year is at most the end day, keeps
records strictly between the years unconditionally, drops records outside
the year interval, and on the Halloween 2003 range (start 2003-10-28,
end 2003-11-02, i.e. days 301 and 306 of 2003) keeps exactly days
301 to 306 of 2003, dropping days 300 and 307. -/
theorem date_filter_C7 :
    (∀ sY sD eY eD rY rD : ℤ,
      inDateRange sY sD eY eD rY rD = true → rY = sY → sD ≤ rD)
    ∧ (∀ sY sD eY eD rY rD : ℤ,
      inDateRange sY sD eY eD rY rD = true → rY = eY → rD ≤ eD)
    ∧ (∀ sY sD eY eD rY rD : ℤ,
      sY < rY → rY < eY → inDateRange sY sD eY eD rY rD = true)
    ∧ (∀ sY sD eY eD rY rD : ℤ,
      (rY < sY ∨ eY < rY) → inDateRange sY sD eY eD rY rD = false)
    ∧ date_to_doy 2003 10 28 = (2003, 301)
    ∧ date_to_doy 2003 11 2 = (2003, 306)
    ∧ (∀ d : ℤ, 301 ≤ d → d ≤ 306 → inDateRange 2003 301 2003 306 2003 d = true)
    ∧ inDateRange 2003 301 2003 306 2003 300 = false
    ∧ inDateRange 2003 301 2003 306 2003 307 = false := by
  refine ⟨?_, ?_, ?_, ?_, by decide, by decide, ?_, by decide, by decide⟩
  · intro sY sD eY eD rY rD h hy
    unfold inDateRange at h
    split_ifs at h <;> first | exact Bool.noConfusion h | omega
  · intro sY sD eY eD rY rD h hy
    unfold inDateRange at h
    split_ifs at h <;> first | exact Bool.noConfusion h | omega
  · intro sY sD eY eD rY rD h1 h2
    unfold inDateRange
    split_ifs <;> first | rfl | (exfalso; omega)
  · intro sY sD eY eD rY rD h
    unfold inDateRange
    split_ifs <;> first | rfl | (exfalso; omega)
  · intro d h1 h2
    unfold inDateRange
    split_ifs <;> first | rfl | (exfalso; omega)

/-- Witness for claim C7: the strictly-between-years part applied at a
concrete record of year 2001 inside the range 2000..2002. -/
theorem date_filter_C7_witness :
    inDateRange 2000 5 2002 7 2001 300 = true :=
  date_filter_C7.2.2.1 2000 5 2002 7 2001 300 (by norm_num) (by norm_num)

/-- Claim C9: a line with fewer than 45 whitespace-separated tokens yields
no record; parse_omni_line is a total function, so no exception escapes it. -/
theorem parse_short_line_C9 (parts : List Token) (h : parts.length < 45) :
    parse_omni_line parts = none := by
  simp [parse_omni_line, h]

/-- Witness for claim C9: the empty line has fewer than 45 tokens and
parses to no record. -/
theorem parse_short_line_C9_witness :
    ([] : List Token).length < 45 ∧ parse_omni_line [] = none :=
  ⟨by decide, parse_short_line_C9 [] (by decide)⟩

/-- Helper: pyMax is none exactly on the empty list. -/
theorem pyMax_eq_none_iff (l : List ℚ) : pyMax l = none ↔ l = [] := by
  cases l <;> simp [pyMax]

/-- Helper: pyMin is none exactly on the empty list. -/
theorem pyMin_eq_none_iff (l : List ℚ) : pyMin l = none ↔ l = [] := by
  cases l <;> simp [pyMin]

/-- Helper: the value of pyMax belongs to the list. -/
theorem pyMax_mem : ∀ {l : List ℚ} {m : ℚ}, pyMax l = some m → m ∈ l := by
  intro l
  induction l with
  | nil => intro m h; simp [pyMax] at h
  | cons x xs ih =>
    intro m h
    cases hx : pyMax xs with
    | none =>
      simp [pyMax, hx] at h
      rw [← h]; exact List.mem_cons_self x xs
    | some mx =>
      simp [pyMax, hx] at h
      rcases max_choice x mx with hc | hc
      · rw [← h, hc]; exact List.mem_cons_self x xs
      · rw [← h, hc]; exact List.mem_cons_of_mem x (ih hx)

/-- Helper: pyMax bounds every list element from above. -/
theorem pyMax_le : ∀ {l : List ℚ} {m : ℚ}, pyMax l = some m → ∀ v ∈ l, v ≤ m := by
  intro l
  induction l with
  | nil => intro m h; simp [pyMax] at h
  | cons x xs ih =>
    intro m h v hv
    cases hx : pyMax xs with
    | none =>
      have hxs : xs = [] := (pyMax_eq_none_iff xs).mp hx
      subst hxs
      simp [pyMax] at h
      simp at hv
      rw [hv, ← h]
    | some mx =>
      simp [pyMax, hx] at h
      rw [← h]
      rcases List.mem_cons.mp hv with rfl | hv2
      · exact le_max_left _ _
      · exact le_trans (ih hx v hv2) (le_max_right _ _)

/-- Helper: the value of pyMin belongs to the list. -/
theorem pyMin_mem : ∀ {l : List ℚ} {m : ℚ}, pyMin l = some m → m ∈ l := by
  intro l
  induction l with
  | nil => intro m h; simp [pyMin] at h
  | cons x xs ih =>
    intro m h
    cases hx : pyMin xs with
    | none =>
      simp [pyMin, hx] at h
      rw [← h]; exact List.mem_cons_self x xs
    | some mx =>
      simp [pyMin, hx] at h
      rcases min_choice x mx with hc | hc
      · rw [← h, hc]; exact List.mem_cons_self x xs
      · rw [← h, hc]; exact List.mem_cons_of_mem x (ih hx)

/-- Helper: pyMin bounds every list element from below. -/
theorem pyMin_le : ∀ {l : List ℚ} {m : ℚ}, pyMin l = some m → ∀ v ∈ l, m ≤ v := by
  intro l
  induction l with
  | nil => intro m h; simp [pyMin] at h
  | cons x xs ih =>
    intro m h v hv
    cases hx : pyMin xs with
    | none =>
      have hxs : xs = [] := (pyMin_eq_none_iff xs).mp hx
      subst hxs
      simp [pyMin] at h
      simp at hv
      rw [hv, ← h]
    | some mx =>
      simp [pyMin, hx] at h
      rw [← h]
      rcases List.mem_cons.mp hv with rfl | hv2
      · exact min_le_left _ _
      · exact le_trans (min_le_right _ _) (ih hx v hv2)

/-- Helper: pyMax computes exactly the greatest element of a list. -/
theorem pyMax_spec (l : List ℚ) (m : ℚ) :
    pyMax l = some m ↔ m ∈ l ∧ ∀ v ∈ l, v ≤ m := by
  constructor
  · intro h; exact ⟨pyMax_mem h, pyMax_le h⟩
  · rintro ⟨hm, hb⟩
    cases hx : pyMax l with
    | none =>
      rw [(pyMax_eq_none_iff l).mp hx] at hm
      simp at hm
    | some m2 =>
      have h1 : m ≤ m2 := pyMax_le hx m hm
      have h2 : m2 ≤ m := hb m2 (pyMax_mem hx)
      rw [le_antisymm h2 h1]

/-- Helper: pyMin computes exactly the least element of a list. -/
theorem pyMin_spec (l : List ℚ) (m : ℚ) :
    pyMin l = some m ↔ m ∈ l ∧ ∀ v ∈ l, m ≤ v := by
  constructor
  · intro h; exact ⟨pyMin_mem h, pyMin_le h⟩
  · rintro ⟨hm, hb⟩
    cases hx : pyMin l with
    | none =>
      rw [(pyMin_eq_none_iff l).mp hx] at hm
      simp at hm
    | some m2 =>
      have h1 : m2 ≤ m := pyMin_le hx m hm
      have h2 : m ≤ m2 := hb m2 (pyMin_mem hx)
      rw [le_antisymm h2 h1]

/-- Helper: membership in a truthy-filtered field list is presence of the
field with a nonzero value in some record. -/
theorem truthyVals_mem (f : ProcessedRecord → Option ℚ) (data : List ProcessedRecord)
    (v : ℚ) :
    v ∈ truthyVals f data ↔ ∃ r ∈ data, f r = some v ∧ v ≠ 0 := by
  simp only [truthyVals, List.mem_filterMap]
  constructor
  · rintro ⟨r, hr, hfr⟩
    cases hfd : f r with
    | none => rw [hfd] at hfr; simp at hfr
    | some w =>
      rw [hfd] at hfr
      by_cases hw : w = 0
      · simp [hw] at hfr
      · simp [hw] at hfr
        exact ⟨r, hr, by rw [hfd, hfr], by rw [← hfr]; exact hw⟩
  · rintro ⟨r, hr, hfr, hv⟩
    exact ⟨r, hr, by simp [hfr, hv]⟩

/-- Helper: the summary record produced on a non-empty processed list,
written out field by field. -/
theorem generate_summary_cons (d0 : ProcessedRecord) (rest : List ProcessedRecord) :
    generate_summary (d0 :: rest) = some
      { time_range :=
          { start := d0.timestamp
            stop := ((d0 :: rest).getLast (by simp)).timestamp
            hours := (d0 :: rest).length }
        solar_wind :=
          { max_speed := pyMax (speedsOf (d0 :: rest))
            min_speed := pyMin (speedsOf (d0 :: rest))
            avg_speed :=
              if speedsOf (d0 :: rest) = [] then none
              else some ((speedsOf (d0 :: rest)).sum / (speedsOf (d0 :: rest)).length)
            max_density := pyMax (densitiesOf (d0 :: rest)) }
        geomagnetic :=
          { min_dst := pyMin (dstsOf (d0 :: rest))
            max_storm_level :=
              (rest.map fun d => d.geomagnetic.storm_level).foldl
                max d0.geomagnetic.storm_level }
        imf :=
          { min_bz := pyMin (bzsOf (d0 :: rest))
            max_bz := pyMax (bzsOf (d0 :: rest)) } } := rfl

/-- Helper: a positive dynamic pressure from present nonzero inputs. -/
theorem pressureOf_eq_some (d s : ℚ) (hd : d ≠ 0) (hs : s ≠ 0) :
    pressureOf (some d) (some s) = some (2e-6 * d * s * s) := by
  simp [pressureOf, hd, hs]

/-- Helper: the dynamic pressure is absent exactly when density or speed
is absent or zero. -/
theorem pressureOf_eq_none_iff (d s : Option ℚ) :
    pressureOf d s = none ↔
      d = none ∨ d = some 0 ∨ s = none ∨ s = some 0 := by
  cases d with
  | none => simp [pressureOf]
  | some dv =>
    cases s with
    | none => simp [pressureOf]
    | some sv =>
      by_cases hd : dv = 0 <;> by_cases hs : sv = 0 <;> simp [pressureOf, hd, hs]

/-- Helper: true-unit Kp from a present nonzero raw Kp. -/
theorem kpTrue_eq_some (k : ℚ) (hk : k ≠ 0) : kpTrue (some k) = some (k / 10) := by
  simp [kpTrue, hk]

/-- Helper: true-unit Kp is absent exactly when the raw Kp is absent or
zero. -/
theorem kpTrue_eq_none_iff (k : Option ℚ) :
    kpTrue k = none ↔ k = none ∨ k = some 0 := by
  cases k with
  | none => simp [kpTrue]
  | some kv => by_cases hk : kv = 0 <;> simp [kpTrue, hk]

/-- Helper: inverting a successful processOne run. -/
theorem processOne_eq_some {r : OmniRecord} {p : ProcessedRecord}
    (h : processOne r = some p) :
    ∃ ts, r.timestamp = some ts ∧
      p.solar_wind.pressure = pressureOf r.proton_density r.plasma_speed ∧
      p.geomagnetic.kp = kpTrue r.kp := by
  cases hts : r.timestamp with
  | none => simp [processOne, hts] at h
  | some ts =>
    simp only [processOne, hts] at h
    injection h with h
    subst h
    exact ⟨ts, rfl, rfl, rfl⟩

/-- Counterexample for claim C1: the record rC1 has both proton density
(value 0) and plasma speed (value 400) present, yet the pipeline leaves
its pressure absent, because the source tests both inputs by Python
truthiness. -/
theorem pressure_truthiness_C1_cex :
    (process_event_data [rC1]).map (fun p => p.solar_wind.pressure) = [none]
    ∧ rC1.proton_density = some 0 ∧ rC1.plasma_speed = some 400 :=
  ⟨rfl, rfl, rfl⟩

/-- Claim C1 (amended): for every raw record the pipeline processes, the
ProcessedRecord's pressure equals 2e-6 × density × speed² when density
and speed are both present and nonzero, and is absent exactly when
density or speed is absent or zero. -/
theorem pressure_presence_C1_amended (r : OmniRecord) (p : ProcessedRecord)
    (h : processOne r = some p) :
    (∀ d s : ℚ, r.proton_density = some d → r.plasma_speed = some s →
      d ≠ 0 → s ≠ 0 → p.solar_wind.pressure = some (2e-6 * d * s * s))
    ∧ (p.solar_wind.pressure = none ↔
        r.proton_density = none ∨ r.proton_density = some 0 ∨
        r.plasma_speed = none ∨ r.plasma_speed = some 0) := by
  obtain ⟨ts, hts, hpress, hkp⟩ := processOne_eq_some h
  constructor
  · intro d s hd hs hd0 hs0
    rw [hpress, hd, hs]
    exact pressureOf_eq_some d s hd0 hs0
  · rw [hpress]
    exact pressureOf_eq_none_iff _ _

/-- Witness for claim C1 (amended): on the record rDemo with density 10
and speed 800, the processed pressure is 2e-6 × 10 × 800². -/
theorem pressure_presence_C1_amended_witness :
    pDemo.solar_wind.pressure = some (2e-6 * 10 * 800 * 800) :=
  (pressure_presence_C1_amended rDemo pDemo rfl).1 10 800 rfl rfl
    (by norm_num) (by norm_num)

/-- Counterexample for claim C3: the record rC3 has a present raw Kp of
value 0, yet the pipeline leaves the output kp absent, because the source
tests the raw Kp by Python truthiness. -/
theorem kp_truthiness_C3_cex :
    (process_event_data [rC3]).map (fun p => p.geomagnetic.kp) = [none]
    ∧ rC3.kp = some 0 :=
  ⟨rfl, rfl⟩

/-- Claim C3 (amended): for every processed record, the output kp equals
the raw Kp divided by 10 when the raw Kp is present and nonzero, and is
absent exactly when the raw Kp is absent or zero. -/
theorem kp_true_units_C3_amended (r : OmniRecord) (p : ProcessedRecord)
    (h : processOne r = some p) :
    (∀ k : ℚ, r.kp = some k → k ≠ 0 → p.geomagnetic.kp = some (k / 10))
    ∧ (p.geomagnetic.kp = none ↔ r.kp = none ∨ r.kp = some 0) := by
  obtain ⟨ts, hts, hpress, hkp⟩ := processOne_eq_some h
  constructor
  · intro k hk hk0
    rw [hkp, hk]
    exact kpTrue_eq_some k hk0
  · rw [hkp]
    exact kpTrue_eq_none_iff _

/-- Witness for claim C3 (amended): on the record rDemo with raw Kp 70,
the processed kp is 7. -/
theorem kp_true_units_C3_amended_witness :
    pDemo.geomagnetic.kp = some (70 / 10) :=
  (kp_true_units_C3_amended rDemo pDemo rfl).1 70 rfl (by norm_num)

/-- Counterexample for claim C2: on the single processed record pC2 whose
Dst is present with value 0, generate_summary reports min_dst as absent,
because the source filters Dst values by Python truthiness and 0 is
falsy. -/
theorem summary_stats_C2_cex :
    ((generate_summary [pC2]).map fun s => s.geomagnetic.min_dst) = some none
    ∧ pC2.geomagnetic.dst = some 0 :=
  ⟨rfl, rfl⟩

/-- Claim C2 (amended): on every non-empty processed sequence,
generate_summary computes max/min/average speed, max density, min Dst and
min/max Bz over exactly the records where that field is present and
nonzero (a present zero is excluded like an absent value, by truthiness),
with the average dividing by the count of that same value set, and each
such statistic is absent exactly when its underlying value set is empty. -/
theorem summary_stats_C2_amended (data : List ProcessedRecord) (h : data ≠ []) :
    ∃ s, generate_summary data = some s ∧
      (∀ v, v ∈ speedsOf data ↔
        ∃ r ∈ data, r.solar_wind.speed = some v ∧ v ≠ 0) ∧
      (s.solar_wind.max_speed = none ↔ speedsOf data = []) ∧
      (∀ m, s.solar_wind.max_speed = some m ↔
        m ∈ speedsOf data ∧ ∀ v ∈ speedsOf data, v ≤ m) ∧
      (s.solar_wind.min_speed = none ↔ speedsOf data = []) ∧
      (∀ m, s.solar_wind.min_speed = some m ↔
        m ∈ speedsOf data ∧ ∀ v ∈ speedsOf data, m ≤ v) ∧
      (s.solar_wind.avg_speed = none ↔ speedsOf data = []) ∧
      (speedsOf data ≠ [] → s.solar_wind.avg_speed =
        some ((speedsOf data).sum / (speedsOf data).length)) ∧
      (∀ v, v ∈ densitiesOf data ↔
        ∃ r ∈ data, r.solar_wind.density = some v ∧ v ≠ 0) ∧
      (s.solar_wind.max_density = none ↔ densitiesOf data = []) ∧
      (∀ m, s.solar_wind.max_density = some m ↔
        m ∈ densitiesOf data ∧ ∀ v ∈ densitiesOf data, v ≤ m) ∧
      (∀ v, v ∈ dstsOf data ↔
        ∃ r ∈ data, r.geomagnetic.dst = some v ∧ v ≠ 0) ∧
      (s.geomagnetic.min_dst = none ↔ dstsOf data = []) ∧
      (∀ m, s.geomagnetic.min_dst = some m ↔
        m ∈ dstsOf data ∧ ∀ v ∈ dstsOf data, m ≤ v) ∧
      (∀ v, v ∈ bzsOf data ↔ ∃ r ∈ data, r.imf.bz = some v ∧ v ≠ 0) ∧
      (s.imf.min_bz = none ↔ bzsOf data = []) ∧
      (∀ m, s.imf.min_bz = some m ↔
        m ∈ bzsOf data ∧ ∀ v ∈ bzsOf data, m ≤ v) ∧
      (s.imf.max_bz = none ↔ bzsOf data = []) ∧
      (∀ m, s.imf.max_bz = some m ↔
        m ∈ bzsOf data ∧ ∀ v ∈ bzsOf data, v ≤ m) := by
  cases data with
  | nil => exact absurd rfl h
  | cons d0 rest =>
    refine ⟨_, generate_summary_cons d0 rest,
      fun v => truthyVals_mem _ _ v,
      pyMax_eq_none_iff _,
      fun m => pyMax_spec _ m,
      pyMin_eq_none_iff _,
      fun m => pyMin_spec _ m,
      ?_, ?_,
      fun v => truthyVals_mem _ _ v,
      pyMax_eq_none_iff _,
      fun m => pyMax_spec _ m,
      fun v => truthyVals_mem _ _ v,
      pyMin_eq_none_iff _,
      fun m => pyMin_spec _ m,
      fun v => truthyVals_mem _ _ v,
      pyMin_eq_none_iff _,
      fun m => pyMin_spec _ m,
      pyMax_eq_none_iff _,
      fun m => pyMax_spec _ m⟩
    · show (if speedsOf (d0 :: rest) = [] then none
        else some ((speedsOf (d0 :: rest)).sum / (speedsOf (d0 :: rest)).length)) = none
        ↔ speedsOf (d0 :: rest) = []
      split_ifs with hsp <;> simp [hsp]
    · intro hne
      show (if speedsOf (d0 :: rest) = [] then none
        else some ((speedsOf (d0 :: rest)).sum / (speedsOf (d0 :: rest)).length)) =
        some ((speedsOf (d0 :: rest)).sum / (speedsOf (d0 :: rest)).length)
      rw [if_neg hne]

/-- Witness for claim C2 (amended): the summary exists on the concrete
one-record list. -/
theorem summary_stats_C2_amended_witness :
    ∃ s, generate_summary [pC2] = some s := by
  obtain ⟨s, hs, -⟩ := summary_stats_C2_amended [pC2] (by simp)
  exact ⟨s, hs⟩

/-- Claim C8: every value decoding within 0.1 of its field's sentinel is
resolved to absent by the parser, and an absent speed contributes nothing
to the speed list that the summary's average is computed from. -/
theorem sentinel_absent_C8 :
    (∀ f : FieldName, ∀ fill : ℚ, FILL_VALUES f = some fill →
      ∀ v : ℚ, |v - fill| < 0.1 → resolveSentinel f v = none)
    ∧ (∀ (r : ProcessedRecord) (l : List ProcessedRecord),
        r.solar_wind.speed = none → speedsOf (r :: l) = speedsOf l) := by
  constructor
  · intro f fill hf v hv
    have hfz : fill ≠ 0 := by
      cases f <;> simp [FILL_VALUES] at hf <;> rw [← hf] <;> norm_num
    simp [resolveSentinel, hf, hfz, hv]
  · intro r l hr
    simp [speedsOf, truthyVals, hr]

/-- Witness for claim C8: the speed sentinel 9999 itself resolves to
absent. -/
theorem sentinel_absent_C8_witness :
    resolveSentinel FieldName.plasma_speed 9999 = none :=
  sentinel_absent_C8.1 FieldName.plasma_speed 9999 (by norm_num [FILL_VALUES])
    9999 (by norm_num)

/-- Helper: presence of the parser timestamp in terms of the three time
fields: year and day-of-year must be present and nonzero (truthiness),
hour need only be present. -/
theorem mkTimestamp_ne_none_iff (y d h : Option ℚ) :
    mkTimestamp y d h ≠ none ↔
      y ≠ none ∧ y ≠ some 0 ∧ d ≠ none ∧ d ≠ some 0 ∧ h ≠ none := by
  cases y with
  | none => simp [mkTimestamp]
  | some yv =>
    cases d with
    | none => simp [mkTimestamp]
    | some dv =>
      cases h with
      | none => simp [mkTimestamp]
      | some hv =>
        by_cases hy : yv = 0
        · simp [mkTimestamp, hy]
        · by_cases hd : dv = 0 <;> simp [mkTimestamp, hy, hd]

/-- Helper: a decoded value far from the sentinel is kept. -/
theorem resolveSentinel_keep (f : FieldName) (v : ℚ)
    (h : ∀ fill : ℚ, FILL_VALUES f = some fill → ¬ |v - fill| < 0.1) :
    resolveSentinel f v = some v := by
  unfold resolveSentinel
  cases hf : FILL_VALUES f with
  | none => rfl
  | some fill =>
    show (if fill ≠ 0 ∧ |v - fill| < 0.1 then none else some v) = some v
    exact if_neg fun hc => h fill hf hc.2

/-- Helper: every field keeps a decoded value of 1 (no sentinel is within
0.1 of 1). -/
theorem resolveSentinel_one (f : FieldName) : resolveSentinel f 1 = some 1 := by
  apply resolveSentinel_keep
  intro fill hf
  cases f <;> simp only [FILL_VALUES] at hf <;>
    (try exact Option.noConfusion hf) <;>
    (injection hf with hf; subst hf; rw [abs_lt]; rintro ⟨h1, h2⟩; norm_num at h1)

/-- Helper: evaluating the parser on a 45-token line whose first three
columns decode to a, b, c and whose remaining columns decode to 1. -/
theorem parse_line_eval (a b c : ℚ) :
    parse_omni_line (some a :: some b :: some c :: List.replicate 42 (some 1)) =
      some { year := some a, doy := some b, hour := some c,
             imf_magnitude := some 1, imf_bx_gse := some 1, imf_by_gse := some 1,
             imf_bz_gse := some 1, plasma_temp := some 1, proton_density := some 1,
             plasma_speed := some 1, kp := some 1, dst := some 1,
             timestamp := mkTimestamp (some a) (some b) (some c) } := by
  have h : parse_omni_line (some a :: some b :: some c :: List.replicate 42 (some 1)) =
      some { year := some a, doy := some b, hour := some c,
             imf_magnitude := resolveSentinel FieldName.imf_magnitude 1,
             imf_bx_gse := resolveSentinel FieldName.imf_bx_gse 1,
             imf_by_gse := resolveSentinel FieldName.imf_by_gse 1,
             imf_bz_gse := resolveSentinel FieldName.imf_bz_gse 1,
             plasma_temp := resolveSentinel FieldName.plasma_temp 1,
             proton_density := resolveSentinel FieldName.proton_density 1,
             plasma_speed := resolveSentinel FieldName.plasma_speed 1,
             kp := resolveSentinel FieldName.kp 1,
             dst := resolveSentinel FieldName.dst 1,
             timestamp := mkTimestamp (some a) (some b) (some c) } := rfl
  rw [h]
  simp only [resolveSentinel_one]

/-- Helper: the hour-0 demonstration line parses to rHourZero. -/
theorem parse_hourZeroLine : parse_omni_line hourZeroLine = some rHourZero := by
  rw [show hourZeroLine =
    some (2024 : ℚ) :: some 5 :: some 0 :: List.replicate 42 (some 1) from rfl]
  rw [parse_line_eval]
  rfl

/-- Claim C10: a successfully parsed record carries a timestamp exactly
when year and day-of-year are present and nonzero and hour is present;
in particular an hour of 0 still gets a timestamp, while a present year
or day-of-year of 0 suppresses it. -/
theorem parse_timestamp_truthiness_C10 :
    (∀ (parts : List Token) (r : OmniRecord), parse_omni_line parts = some r →
      (r.timestamp ≠ none ↔
        r.year ≠ none ∧ r.year ≠ some 0 ∧
        r.doy ≠ none ∧ r.doy ≠ some 0 ∧ r.hour ≠ none))
    ∧ ((parse_omni_line hourZeroLine).map fun r => r.timestamp.isSome) = some true
    ∧ ((parse_omni_line yearZeroLine).map fun r => r.timestamp.isSome) = some false
    ∧ ((parse_omni_line doyZeroLine).map fun r => r.timestamp.isSome) = some false := by
  refine ⟨?_, ?_, ?_, ?_⟩
  · intro parts r hpr
    unfold parse_omni_line at hpr
    by_cases hlen : parts.length < 45
    · rw [if_pos hlen] at hpr
      exact Option.noConfusion hpr
    · rw [if_neg hlen] at hpr
      simp only [Option.bind_eq_some] at hpr
      obtain ⟨y, hy, d, hd, hh, hhh, m, hm, bx, hbx, byv, hbyv, bz, hbz, t, ht,
        n, hn, v, hv, k, hk, ds, hds, heq⟩ := hpr
      injection heq with heq
      subst heq
      exact mkTimestamp_ne_none_iff y d hh
  · rw [show hourZeroLine =
      some (2024 : ℚ) :: some 5 :: some 0 :: List.replicate 42 (some 1) from rfl]
    rw [parse_line_eval]
    rfl
  · rw [show yearZeroLine =
      some (0 : ℚ) :: some 5 :: some 3 :: List.replicate 42 (some 1) from rfl]
    rw [parse_line_eval]
    rfl
  · rw [show doyZeroLine =
      some (2024 : ℚ) :: some 0 :: some 3 :: List.replicate 42 (some 1) from rfl]
    rw [parse_line_eval]
    rfl

/-- Witness for claim C10: the record parsed from the hour-0 line
satisfies the timestamp-presence equivalence. -/
theorem parse_timestamp_truthiness_C10_witness :
    rHourZero.timestamp ≠ none ↔
      rHourZero.year ≠ none ∧ rHourZero.year ≠ some 0 ∧
      rHourZero.doy ≠ none ∧ rHourZero.doy ≠ some 0 ∧ rHourZero.hour ≠ none :=
  parse_timestamp_truthiness_C10.1 hourZeroLine rHourZero parse_hourZeroLine

end SpaceWeather
